import Mathlib

/-!
Verification of the iron-repletion prediction-and-calibration engine
(`core.py` of the height-riona-app repository).

The Python source is shallowly embedded: floats become rationals (`ℚ`),
`None`-able values become `Option`, raised `ValueError`s become
`Except.error`, and the SQLite case/follow-up stores together with the
JSON model store become an explicit `DB` record threaded through the
stateful operations.  Python's `round(x, n)` (round-half-even on the
value) is embedded as exact round-half-even on rationals.
-/

namespace Riona

/-- `clamp` from core.py: `max(lo, min(hi, x))`. -/
def clamp (x lo hi : ℚ) : ℚ := max lo (min hi x)

/-- `calc_tsat` from core.py: `None` when `tibc <= 0`, else `100 * fe / tibc`.
(The `tibc is None` guard is vacuous here since `tibc` is a plain rational.) -/
def calc_tsat (fe tibc : ℚ) : Option ℚ :=
  if tibc ≤ 0 then none else some (100 * fe / tibc)

/-- Round-half-even of a rational to an integer, the tie-breaking rule of
Python's built-in `round`. -/
def roundHalfEven (q : ℚ) : ℤ :=
  if q - (⌊q⌋ : ℚ) < 1/2 then ⌊q⌋
  else if 1/2 < q - (⌊q⌋ : ℚ) then ⌊q⌋ + 1
  else if ⌊q⌋ % 2 = 0 then ⌊q⌋ else ⌊q⌋ + 1

/-- `round(q, nd)` of core.py's output boundary: round-half-even at `nd`
decimal places. -/
def roundTo (nd : ℕ) (q : ℚ) : ℚ := (roundHalfEven (q * 10 ^ nd) : ℚ) / 10 ^ nd

/-- The `Labs` dataclass of core.py. -/
structure Labs where
  hb : ℚ
  fe : ℚ
  ferritin : ℚ
  tibc : ℚ
  tsat : Option ℚ := none
deriving Repr, DecidableEq

/-- The `Ctx` dataclass of core.py. -/
structure Ctx where
  dose_mg_day : ℤ := 500
  adherence : ℚ := 1
  bleed : ℚ := 0
  inflam : ℚ := 0
deriving Repr, DecidableEq

/-- The forecast dict returned by `rule_predict` / `calibrated_predict`. -/
structure Forecast where
  Hb : ℚ
  Fe : ℚ
  Ferritin : ℚ
  TSAT : ℚ
  alerts : List String
deriving Repr, DecidableEq

/-- `labs.tsat if labs.tsat is not None else calc_tsat(labs.fe, labs.tibc)`. -/
def derive_tsat0 (labs : Labs) : Option ℚ :=
  match labs.tsat with
  | some t => some t
  | none => calc_tsat labs.fe labs.tibc

/-- `scale = horizon_weeks / 12.0` in `rule_predict`. -/
def scale (horizon_weeks : ℤ) : ℚ := (horizon_weeks : ℚ) / 12

/-- `dose_scale = clamp(ctx.dose_mg_day / 500.0, 0.5, 2.0)`. -/
def dose_scale (ctx : Ctx) : ℚ := clamp ((ctx.dose_mg_day : ℚ) / 500) (1/2) 2

/-- `eff = clamp(ctx.adherence * dose_scale, 0.2, 2.0)`. -/
def eff (ctx : Ctx) : ℚ := clamp (ctx.adherence * dose_scale ctx) (1/5) 2

/-- The unclamped TSAT increment `10.0 * eff * scale` of `rule_predict`
(the quantity inside the `tsat1` clamp). -/
def tsat_delta_unclamped (ctx : Ctx) (horizon_weeks : ℤ) : ℚ :=
  10 * eff ctx * scale horizon_weeks

/-- `tsat1 = clamp(tsat0 + 10.0 * eff * scale, 5.0, 40.0)`. -/
def tsat1 (tsat0 : ℚ) (ctx : Ctx) (horizon_weeks : ℤ) : ℚ :=
  clamp (tsat0 + tsat_delta_unclamped ctx horizon_weeks) 5 40

/-- `low_hb_boost = clamp(1.0 + (10.5 - labs.hb) * 0.15, 0.8, 1.4)`. -/
def low_hb_boost (labs : Labs) : ℚ := clamp (1 + (21/2 - labs.hb) * (15/100)) (4/5) (7/5)

/-- `iron_boost = clamp((tsat1 - tsat0) / 10.0, 0.0, 1.5)`. -/
def iron_boost (tsat0 : ℚ) (ctx : Ctx) (horizon_weeks : ℤ) : ℚ :=
  clamp ((tsat1 tsat0 ctx horizon_weeks - tsat0) / 10) 0 (3/2)

/-- `loss_penalty = 1.0 - clamp(ctx.bleed * 0.7, 0.0, 0.7)`. -/
def loss_penalty (ctx : Ctx) : ℚ := 1 - clamp (ctx.bleed * (7/10)) 0 (7/10)

/-- `delta_hb = (0.5*eff*scale) * low_hb_boost * (0.6 + 0.4*iron_boost) * loss_penalty`. -/
def delta_hb (labs : Labs) (tsat0 : ℚ) (ctx : Ctx) (horizon_weeks : ℤ) : ℚ :=
  (1/2 * eff ctx * scale horizon_weeks) * low_hb_boost labs *
    (3/5 + 2/5 * iron_boost tsat0 ctx horizon_weeks) * loss_penalty ctx

/-- The `clamp((tsat1 - tsat0) / 10.0, 0.0, 2.0)` factor of `ferritin_gain`. -/
def ferritin_boost (tsat0 : ℚ) (ctx : Ctx) (horizon_weeks : ℤ) : ℚ :=
  clamp ((tsat1 tsat0 ctx horizon_weeks - tsat0) / 10) 0 2

/-- `ferritin_gain = (30.0*eff*scale) * clamp((tsat1 - tsat0)/10.0, 0.0, 2.0)`. -/
def ferritin_gain (tsat0 : ℚ) (ctx : Ctx) (horizon_weeks : ℤ) : ℚ :=
  (30 * eff ctx * scale horizon_weeks) * ferritin_boost tsat0 ctx horizon_weeks

/-- The body of `rule_predict` after the TSAT-derivation check succeeded with
value `tsat0`. -/
def rule_core (labs : Labs) (tsat0 : ℚ) (ctx : Ctx) (horizon_weeks : ℤ) : Forecast :=
  let t1 := tsat1 tsat0 ctx horizon_weeks
  let hb1 := clamp (labs.hb + delta_hb labs tsat0 ctx horizon_weeks) 5 (35/2)
  let ferritin_inflation := ctx.inflam * (30 * scale horizon_weeks)
  let ferritin1 :=
    clamp (labs.ferritin + ferritin_gain tsat0 ctx horizon_weeks + ferritin_inflation) 1 250
  let fe1 := clamp (t1 * labs.tibc / 100) 1 400
  let alerts :=
    (if 40 ≤ t1 then ["TSAT上限到達：鉄過剰注意"] else []) ++
    (if 200 ≤ ferritin1 then ["フェリチン高値域：経過観察/減量検討"] else []) ++
    (if 3/10 < ctx.inflam then ["炎症あり：フェリチン解釈注意"] else [])
  { Hb := roundTo 2 hb1
    Fe := roundTo 1 fe1
    Ferritin := roundTo 1 ferritin1
    TSAT := roundTo 1 t1
    alerts := alerts }

/-- `rule_predict` from core.py: raises `ValueError` when TSAT can be
neither read nor derived, otherwise the pure rule forecast. -/
def rule_predict (labs : Labs) (ctx : Ctx) (horizon_weeks : ℤ) : Except String Forecast :=
  match derive_tsat0 labs with
  | none => .error "TSATまたはFe/TIBCが必要です"
  | some t0 => .ok (rule_core labs t0 ctx horizon_weeks)

/-- One adjustment head of a calibration model: `{"bias": b, "weights": {...}}`. -/
structure Adj where
  bias : ℚ
  weights : List (String × ℚ)
deriving Repr, DecidableEq

/-- The per-fit training diagnostics dict of `train_calibration`. -/
structure TrainMetrics where
  mae_hb_residual : ℚ
  mae_tsat_residual : ℚ
  mae_ferritin_residual : ℚ
  alpha : ℚ
deriving Repr, DecidableEq

/-- A calibration model as stored in the JSON model store. -/
structure Model where
  version : String
  trained_at : ℤ
  horizon_weeks : ℤ
  n_train : ℕ
  features : List String
  adjustments_hb : Adj
  adjustments_tsat : Adj
  adjustments_ferritin : Adj
  metrics : TrainMetrics
deriving Repr, DecidableEq

/-- The feature dict `x` built inside `calibrated_predict`. -/
def feature_map (labs : Labs) (tsat0 : ℚ) (ctx : Ctx) : List (String × ℚ) :=
  [("hb0", labs.hb), ("tsat0", tsat0), ("ferritin0", labs.ferritin), ("tibc0", labs.tibc),
   ("dose", (ctx.dose_mg_day : ℚ)), ("adherence", ctx.adherence),
   ("bleed", ctx.bleed), ("inflam", ctx.inflam)]

/-- The inner `lin(adj)` of `calibrated_predict`: `bias + Σ w_k * x.get(k, 0.0)`. -/
def lin (x : List (String × ℚ)) (adj : Adj) : ℚ :=
  adj.weights.foldl (fun s kv => s + kv.2 * ((x.lookup kv.1).getD 0)) adj.bias

/-- The body of `calibrated_predict` after both the base rule forecast and
`tsat0` are available.  (`list(set(...))` on the alerts is embedded as
`dedup`, which fixes one of the orders the Python set may produce; no claim
depends on the alert order.) -/
def calibrated_core (base : Forecast) (labs : Labs) (tsat0 : ℚ) (ctx : Ctx) (model : Model) :
    Forecast :=
  let x := feature_map labs tsat0 ctx
  let adj_hb := lin x model.adjustments_hb
  let adj_tsat := lin x model.adjustments_tsat
  let adj_ferr := lin x model.adjustments_ferritin
  let hb1 := clamp (base.Hb + adj_hb) 5 (35/2)
  let t1 := clamp (base.TSAT + adj_tsat) 5 40
  let ferr1 := clamp (base.Ferritin + adj_ferr) 1 250
  let fe1 := clamp (t1 * labs.tibc / 100) 1 400
  { Hb := roundTo 2 hb1
    Fe := roundTo 1 fe1
    Ferritin := roundTo 1 ferr1
    TSAT := roundTo 1 t1
    alerts := (base.alerts ++ ["校正モデル適用"]).dedup }

/-- `calibrated_predict` from core.py: the base rule forecast plus one linear
adjustment per head, re-clamped and re-rounded; Fe re-derived from the
adjusted TSAT. -/
def calibrated_predict (labs : Labs) (ctx : Ctx) (horizon_weeks : ℤ) (model : Model) :
    Except String Forecast :=
  match rule_predict labs ctx horizon_weeks with
  | .error e => .error e
  | .ok base =>
    match derive_tsat0 labs with
    | none => .error "TSATまたはFe/TIBCが必要です"
    | some t0 => .ok (calibrated_core base labs t0 ctx model)

/-- The §8 clamping invariants of the spec, as a predicate on a forecast. -/
def Forecast.inBounds (f : Forecast) : Prop :=
  5 ≤ f.TSAT ∧ f.TSAT ≤ 40 ∧ 5 ≤ f.Hb ∧ f.Hb ≤ 35/2 ∧
  1 ≤ f.Ferritin ∧ f.Ferritin ≤ 250 ∧ 1 ≤ f.Fe ∧ f.Fe ≤ 400

/- ### Bounds lemmas for clamping and rounding -/

theorem le_clamp (x lo hi : ℚ) : lo ≤ clamp x lo hi := le_max_left _ _

theorem clamp_le (x lo hi : ℚ) (h : lo ≤ hi) : clamp x lo hi ≤ hi :=
  max_le h (min_le_left _ _)

theorem roundHalfEven_ge (a : ℤ) (q : ℚ) (h : (a : ℚ) ≤ q) : a ≤ roundHalfEven q := by
  have hf : a ≤ ⌊q⌋ := Int.le_floor.mpr h
  unfold roundHalfEven
  split
  · exact hf
  · split
    · omega
    · split
      · exact hf
      · omega

theorem roundHalfEven_le (b : ℤ) (q : ℚ) (h : q ≤ (b : ℚ)) : roundHalfEven q ≤ b := by
  have hf : ⌊q⌋ ≤ b := by
    have h2 := Int.floor_le_floor h
    simpa using h2
  have hq : (⌊q⌋ : ℚ) ≤ q := Int.floor_le q
  unfold roundHalfEven
  split
  · exact hf
  · have hlt : ⌊q⌋ < b := by
      rename_i h1
      have h3 : (⌊q⌋ : ℚ) + 1/2 ≤ q := by linarith [not_lt.mp h1]
      have h4 : (⌊q⌋ : ℚ) < (b : ℚ) := by linarith
      exact_mod_cast h4
    split
    · omega
    · split
      · exact hf
      · omega

theorem roundTo_ge (nd : ℕ) (a : ℤ) (q : ℚ) (h : (a : ℚ) / 10 ^ nd ≤ q) :
    (a : ℚ) / 10 ^ nd ≤ roundTo nd q := by
  have hp : (0 : ℚ) < 10 ^ nd := by positivity
  have h1 : (a : ℚ) ≤ q * 10 ^ nd := by
    rw [div_le_iff₀ hp] at h
    exact h
  have h2 : (a : ℚ) ≤ (roundHalfEven (q * 10 ^ nd) : ℚ) := by
    exact_mod_cast roundHalfEven_ge a _ h1
  unfold roundTo
  gcongr

theorem roundTo_le (nd : ℕ) (b : ℤ) (q : ℚ) (h : q ≤ (b : ℚ) / 10 ^ nd) :
    roundTo nd q ≤ (b : ℚ) / 10 ^ nd := by
  have hp : (0 : ℚ) < 10 ^ nd := by positivity
  have h1 : q * 10 ^ nd ≤ (b : ℚ) := by
    rw [le_div_iff₀ hp] at h
    exact h
  have h2 : (roundHalfEven (q * 10 ^ nd) : ℚ) ≤ (b : ℚ) := by
    exact_mod_cast roundHalfEven_le b _ h1
  unfold roundTo
  gcongr

theorem roundTo_clamp_mem (nd : ℕ) (a b : ℤ) (x : ℚ)
    (hab : (a : ℚ) / 10 ^ nd ≤ (b : ℚ) / 10 ^ nd) :
    (a : ℚ) / 10 ^ nd ≤ roundTo nd (clamp x ((a : ℚ) / 10 ^ nd) ((b : ℚ) / 10 ^ nd)) ∧
    roundTo nd (clamp x ((a : ℚ) / 10 ^ nd) ((b : ℚ) / 10 ^ nd)) ≤ (b : ℚ) / 10 ^ nd :=
  ⟨roundTo_ge nd a _ (le_clamp _ _ _), roundTo_le nd b _ (clamp_le _ _ _ hab)⟩

theorem rule_core_inBounds (labs : Labs) (t0 : ℚ) (ctx : Ctx) (horizon_weeks : ℤ) :
    (rule_core labs t0 ctx horizon_weeks).inBounds := by
  have hT := roundTo_clamp_mem 1 50 400
    (t0 + tsat_delta_unclamped ctx horizon_weeks) (by norm_num)
  have hH := roundTo_clamp_mem 2 500 1750
    (labs.hb + delta_hb labs t0 ctx horizon_weeks) (by norm_num)
  have hFr := roundTo_clamp_mem 1 10 2500
    (labs.ferritin + ferritin_gain t0 ctx horizon_weeks +
      ctx.inflam * (30 * scale horizon_weeks)) (by norm_num)
  have hFe := roundTo_clamp_mem 1 10 4000
    (tsat1 t0 ctx horizon_weeks * labs.tibc / 100) (by norm_num)
  norm_num at hT hH hFr hFe
  exact ⟨hT.1, hT.2, hH.1, hH.2, hFr.1, hFr.2, hFe.1, hFe.2⟩

theorem calibrated_core_inBounds (base : Forecast) (labs : Labs) (t0 : ℚ) (ctx : Ctx)
    (m : Model) : (calibrated_core base labs t0 ctx m).inBounds := by
  have hT := roundTo_clamp_mem 1 50 400
    (base.TSAT + lin (feature_map labs t0 ctx) m.adjustments_tsat) (by norm_num)
  have hH := roundTo_clamp_mem 2 500 1750
    (base.Hb + lin (feature_map labs t0 ctx) m.adjustments_hb) (by norm_num)
  have hFr := roundTo_clamp_mem 1 10 2500
    (base.Ferritin + lin (feature_map labs t0 ctx) m.adjustments_ferritin) (by norm_num)
  have hFe := roundTo_clamp_mem 1 10 4000
    (clamp (base.TSAT + lin (feature_map labs t0 ctx) m.adjustments_tsat) 5 40 *
      labs.tibc / 100) (by norm_num)
  norm_num at hT hH hFr hFe
  exact ⟨hT.1, hT.2, hH.1, hH.2, hFr.1, hFr.2, hFe.1, hFe.2⟩

/- ### Claim theorems: predictors -/

/-- C9: `rule_predict` raises an input error exactly when `labs.tsat` is
absent and `labs.tibc ≤ 0`; on every other input it returns a forecast.
Determinism and freedom from side effects are inherent in the embedding
(`rule_predict` is a function of its arguments only), and no default TSAT is
substituted: the error is raised instead. -/
theorem rule_predict_error_iff (labs : Labs) (ctx : Ctx) (horizon_weeks : ℤ) :
    (∃ e, rule_predict labs ctx horizon_weeks = .error e) ↔
      labs.tsat = none ∧ labs.tibc ≤ 0 := by
  cases htt : labs.tsat with
  | none =>
    by_cases htb : labs.tibc ≤ 0 <;>
      simp [rule_predict, derive_tsat0, calc_tsat, htt, htb]
  | some t => simp [rule_predict, derive_tsat0, htt]

/-- C3: for every input with derivable TSAT, every horizon in {12, 24} and
every calibration model, both `rule_predict` and `calibrated_predict` return
a forecast with TSAT ∈ [5, 40], Hb ∈ [5, 17.5], Ferritin ∈ [1, 250] and
Fe ∈ [1, 400], however extreme the context values are. -/
theorem predict_clamping (labs : Labs) (ctx : Ctx) (horizon_weeks : ℤ) (m : Model) (t0 : ℚ)
    (ht : derive_tsat0 labs = some t0) (_hh : horizon_weeks = 12 ∨ horizon_weeks = 24) :
    (∃ f, rule_predict labs ctx horizon_weeks = .ok f ∧ f.inBounds) ∧
    (∃ f, calibrated_predict labs ctx horizon_weeks m = .ok f ∧ f.inBounds) := by
  have h1 : rule_predict labs ctx horizon_weeks = .ok (rule_core labs t0 ctx horizon_weeks) := by
    simp [rule_predict, ht]
  refine ⟨⟨_, h1, rule_core_inBounds labs t0 ctx horizon_weeks⟩, ⟨_, ?_, calibrated_core_inBounds
    (rule_core labs t0 ctx horizon_weeks) labs t0 ctx m⟩⟩
  simp [calibrated_predict, h1, ht]

/-- Witness for C3 at a concrete input (the §8 example labs, horizon 12,
a concrete one-weight model). -/
theorem predict_clamping_witness :
    derive_tsat0 ⟨10, 50, 20, 300, none⟩ = some (50/3) ∧
    ((∃ f, rule_predict ⟨10, 50, 20, 300, none⟩ ⟨500, 1, 0, 0⟩ 12 = .ok f ∧ f.inBounds) ∧
     (∃ f, calibrated_predict ⟨10, 50, 20, 300, none⟩ ⟨500, 1, 0, 0⟩ 12
        ⟨"20240101-000000", 0, 12, 11, [], ⟨1, [("hb0", 2)]⟩, ⟨0, []⟩, ⟨0, []⟩, ⟨0, 0, 0, 10⟩⟩
          = .ok f ∧ f.inBounds)) :=
  ⟨by norm_num [derive_tsat0, calc_tsat],
   predict_clamping ⟨10, 50, 20, 300, none⟩ ⟨500, 1, 0, 0⟩ 12
     ⟨"20240101-000000", 0, 12, 11, [], ⟨1, [("hb0", 2)]⟩, ⟨0, []⟩, ⟨0, []⟩, ⟨0, 0, 0, 10⟩⟩
     (50/3) (by norm_num [derive_tsat0, calc_tsat]) (Or.inl rfl)⟩

/-- C2 (amended): at fixed inputs the unclamped TSAT increment
`10*eff*scale` at horizon 24 is exactly twice its value at horizon 12, and
`delta_hb` (resp. `ferritin_gain`) doubles exactly when its iron-boost
factor — which is computed from the clamped `tsat1` — coincides at the two
horizons; in general those boost factors differ and the deltas do not
double. -/
theorem horizon_scaling (labs : Labs) (ctx : Ctx) (t0 : ℚ)
    (_ht : derive_tsat0 labs = some t0) :
    tsat_delta_unclamped ctx 24 = 2 * tsat_delta_unclamped ctx 12 ∧
    (iron_boost t0 ctx 24 = iron_boost t0 ctx 12 →
      delta_hb labs t0 ctx 24 = 2 * delta_hb labs t0 ctx 12) ∧
    (ferritin_boost t0 ctx 24 = ferritin_boost t0 ctx 12 →
      ferritin_gain t0 ctx 24 = 2 * ferritin_gain t0 ctx 12) := by
  refine ⟨?_, fun hib => ?_, fun hfb => ?_⟩
  · unfold tsat_delta_unclamped scale
    push_cast
    ring
  · unfold delta_hb scale
    rw [hib]
    push_cast
    ring
  · unfold ferritin_gain scale
    rw [hfb]
    push_cast
    ring

/-- Witness for C2's amended claim at the §8 example input. -/
theorem horizon_scaling_witness :
    derive_tsat0 ⟨10, 50, 20, 300, none⟩ = some (50/3) ∧
    (tsat_delta_unclamped ⟨500, 1, 0, 0⟩ 24 = 2 * tsat_delta_unclamped ⟨500, 1, 0, 0⟩ 12 ∧
     (iron_boost (50/3) ⟨500, 1, 0, 0⟩ 24 = iron_boost (50/3) ⟨500, 1, 0, 0⟩ 12 →
       delta_hb ⟨10, 50, 20, 300, none⟩ (50/3) ⟨500, 1, 0, 0⟩ 24 =
         2 * delta_hb ⟨10, 50, 20, 300, none⟩ (50/3) ⟨500, 1, 0, 0⟩ 12) ∧
     (ferritin_boost (50/3) ⟨500, 1, 0, 0⟩ 24 = ferritin_boost (50/3) ⟨500, 1, 0, 0⟩ 12 →
       ferritin_gain (50/3) ⟨500, 1, 0, 0⟩ 24 = 2 * ferritin_gain (50/3) ⟨500, 1, 0, 0⟩ 12)) :=
  ⟨by norm_num [derive_tsat0, calc_tsat],
   horizon_scaling ⟨10, 50, 20, 300, none⟩ ⟨500, 1, 0, 0⟩ (50/3)
     (by norm_num [derive_tsat0, calc_tsat])⟩

/-- Counterexample to C2 as stated: at baseline TSAT 5 with default context
(derivable TSAT, eff = 1), the pre-clamp Hb increment at 24 weeks is 1.29,
not 2 × 0.5375 = 1.075, and the ferritin gain is 120, not 2 × 30 = 60 —
because `iron_boost` and the ferritin boost are computed from the clamped
`tsat1` and hit their own caps differently at the two horizons. -/
theorem horizon_scaling_cx :
    derive_tsat0 ⟨10, 50, 20, 300, some 5⟩ = some 5 ∧
    delta_hb ⟨10, 50, 20, 300, some 5⟩ 5 ⟨500, 1, 0, 0⟩ 24 ≠
      2 * delta_hb ⟨10, 50, 20, 300, some 5⟩ 5 ⟨500, 1, 0, 0⟩ 12 ∧
    ferritin_gain 5 ⟨500, 1, 0, 0⟩ 24 ≠ 2 * ferritin_gain 5 ⟨500, 1, 0, 0⟩ 12 := by
  refine ⟨by norm_num [derive_tsat0], ?_, ?_⟩ <;>
  · simp only [delta_hb, ferritin_gain, ferritin_boost, iron_boost, low_hb_boost, loss_penalty,
      tsat1, tsat_delta_unclamped, eff, dose_scale, scale, clamp]
    norm_num [max_def, min_def]

/-- C5 (amended): on the §8 example input the rule forecast is
Hb = 10.54, Fe = 80.0, Ferritin = 50.0 and TSAT = 26.7 (the code rounds
TSAT to one decimal place), with tsat0 derived as exactly 50/3, eff = 1 and
delta_hb = 0.5375. -/
theorem rule_predict_example :
    rule_predict ⟨10, 50, 20, 300, none⟩ ⟨500, 1, 0, 0⟩ 12 =
      .ok { Hb := 1054/100, Fe := 80, Ferritin := 50, TSAT := 267/10, alerts := [] } ∧
    derive_tsat0 ⟨10, 50, 20, 300, none⟩ = some (50/3) ∧
    eff ⟨500, 1, 0, 0⟩ = 1 ∧
    delta_hb ⟨10, 50, 20, 300, none⟩ (50/3) ⟨500, 1, 0, 0⟩ 12 = 5375/10000 := by
  refine ⟨?_, by norm_num [derive_tsat0, calc_tsat], ?_, ?_⟩ <;>
  · simp only [rule_predict, derive_tsat0, calc_tsat, rule_core, tsat1, tsat_delta_unclamped,
      delta_hb, ferritin_gain, ferritin_boost, iron_boost, low_hb_boost, loss_penalty, eff,
      dose_scale, scale, clamp, roundTo, roundHalfEven]
    norm_num [max_def, min_def]

/-- Counterexample to C5 as stated: the returned TSAT is not 26.67 (the
code rounds TSAT to one decimal, giving 26.7). -/
theorem rule_predict_example_cx :
    (rule_predict ⟨10, 50, 20, 300, none⟩ ⟨500, 1, 0, 0⟩ 12).map Forecast.TSAT ≠
      .ok (2667/100) := by
  simp only [rule_predict, derive_tsat0, calc_tsat, rule_core, tsat1, tsat_delta_unclamped,
    delta_hb, ferritin_gain, ferritin_boost, iron_boost, low_hb_boost, loss_penalty, eff,
    dose_scale, scale, clamp, roundTo, roundHalfEven]
  norm_num [max_def, min_def, Except.map]

/- ### Ridge regression (`_ridge_fit` of core.py) -/

open Matrix

/-- The fixed feature tuple `FEATURE_KEYS` of core.py. -/
def FEATURE_KEYS : List String :=
  ["hb0", "tsat0", "ferritin0", "tibc0", "dose", "adherence", "bleed", "inflam"]

/-- `X_mean = X.mean(axis=0)` in `_ridge_fit`. -/
def xMean {n : ℕ} (X : Matrix (Fin n) (Fin 8) ℚ) : Fin 8 → ℚ :=
  fun j => (∑ i, X i j) / n

/-- `y_mean = y.mean()` in `_ridge_fit`. -/
def yMean {n : ℕ} (y : Fin n → ℚ) : ℚ := (∑ i, y i) / n

/-- `Xc = X - X_mean` in `_ridge_fit`. -/
def centeredX {n : ℕ} (X : Matrix (Fin n) (Fin 8) ℚ) : Matrix (Fin n) (Fin 8) ℚ :=
  Matrix.of fun i j => X i j - xMean X j

/-- `yc = y - y_mean` in `_ridge_fit`. -/
def centeredY {n : ℕ} (y : Fin n → ℚ) : Fin n → ℚ := fun i => y i - yMean y

/-- `A = Xc.T @ Xc + alpha * np.eye(n_feat)` in `_ridge_fit`. -/
def ridgeMatrix {n : ℕ} (X : Matrix (Fin n) (Fin 8) ℚ) (alpha : ℚ) :
    Matrix (Fin 8) (Fin 8) ℚ :=
  (centeredX X)ᵀ * centeredX X + alpha • 1

/-- `Xc.T @ yc`, the right-hand side of the linear system in `_ridge_fit`. -/
def ridgeRhs {n : ℕ} (X : Matrix (Fin n) (Fin 8) ℚ) (y : Fin n → ℚ) : Fin 8 → ℚ :=
  (centeredX X)ᵀ *ᵥ centeredY y

/-- `np.linalg.solve(A, b)`, embedded as the exact solution of the square
system via the adjugate.  (For a singular matrix NumPy raises; here the
embedding returns the zero vector, a case that never arises because
`ridgeMatrix` is provably nonsingular for `alpha > 0`.) -/
def linSolve {k : ℕ} (A : Matrix (Fin k) (Fin k) ℚ) (b : Fin k → ℚ) : Fin k → ℚ :=
  ((A.det)⁻¹ • A.adjugate) *ᵥ b

/-- `_ridge_fit` of core.py: centre the data, solve the regularized normal
equations, reconstruct the unregularized intercept. -/
def ridge_fit {n : ℕ} (X : Matrix (Fin n) (Fin 8) ℚ) (y : Fin n → ℚ) (alpha : ℚ) :
    (Fin 8 → ℚ) × ℚ :=
  let w := linSolve (ridgeMatrix X alpha) (ridgeRhs X y)
  (w, yMean y - xMean X ⬝ᵥ w)

theorem dot_self_nonneg {k : ℕ} (v : Fin k → ℚ) : 0 ≤ v ⬝ᵥ v :=
  Finset.sum_nonneg fun _ _ => mul_self_nonneg _

theorem dot_self_pos {k : ℕ} (v : Fin k → ℚ) (hv : v ≠ 0) : 0 < v ⬝ᵥ v := by
  obtain ⟨i, hi⟩ := Function.ne_iff.mp hv
  exact Finset.sum_pos' (fun j _ => mul_self_nonneg _)
    ⟨i, Finset.mem_univ i, mul_self_pos.mpr hi⟩

/-- The regularized normal matrix is nonsingular for every `alpha > 0` and
every `X` — in particular also when the number of rows is below the number
of features. -/
theorem ridgeMatrix_det_ne_zero {n : ℕ} (X : Matrix (Fin n) (Fin 8) ℚ) (alpha : ℚ)
    (ha : 0 < alpha) : (ridgeMatrix X alpha).det ≠ 0 := by
  intro hdet
  obtain ⟨v, hv, hAv⟩ := Matrix.exists_mulVec_eq_zero_iff.mpr hdet
  have key : v ⬝ᵥ (ridgeMatrix X alpha) *ᵥ v =
      (centeredX X *ᵥ v) ⬝ᵥ (centeredX X *ᵥ v) + alpha * (v ⬝ᵥ v) := by
    rw [ridgeMatrix, Matrix.add_mulVec, Matrix.dotProduct_add]
    congr 1
    · rw [← Matrix.mulVec_mulVec, Matrix.dotProduct_mulVec, Matrix.vecMul_transpose]
    · rw [Matrix.smul_mulVec_assoc, Matrix.one_mulVec, Matrix.dotProduct_smul, smul_eq_mul]
  rw [hAv, Matrix.dotProduct_zero] at key
  have h1 : 0 ≤ (centeredX X *ᵥ v) ⬝ᵥ (centeredX X *ᵥ v) := dot_self_nonneg _
  have h2 : 0 < alpha * (v ⬝ᵥ v) := mul_pos ha (dot_self_pos v hv)
  linarith

theorem linSolve_mulVec {k : ℕ} (A : Matrix (Fin k) (Fin k) ℚ) (b : Fin k → ℚ)
    (hA : A.det ≠ 0) : A *ᵥ linSolve A b = b := by
  unfold linSolve
  rw [Matrix.mulVec_mulVec, Matrix.mul_smul, Matrix.mul_adjugate, smul_smul,
    inv_mul_cancel₀ hA, one_smul, Matrix.one_mulVec]

theorem mulVec_injective_of_det_ne_zero {k : ℕ} (A : Matrix (Fin k) (Fin k) ℚ)
    (hA : A.det ≠ 0) {v w : Fin k → ℚ} (h : A *ᵥ v = A *ᵥ w) : v = w := by
  by_contra hne
  apply hA
  apply Matrix.exists_mulVec_eq_zero_iff.mp
  refine ⟨v - w, sub_ne_zero.mpr hne, ?_⟩
  rw [Matrix.mulVec_sub, h, sub_self]

/-- C6: for every feature matrix with at least one row, every target vector
and every `alpha > 0`, `_ridge_fit` returns `(w, b)` where `w` is the unique
solution of `(Xcᵀ·Xc + alpha·I)·w = Xcᵀ·yc` over the mean-centered data and
`b = y_mean − X_mean·w`.  The row count is arbitrary: nothing special-cases
`n` below the feature count 8 (the witness instantiates `n = 1 < 8`). -/
theorem ridge_fit_spec {n : ℕ} (X : Matrix (Fin n) (Fin 8) ℚ) (y : Fin n → ℚ) (alpha : ℚ)
    (_hn : 1 ≤ n) (ha : 0 < alpha) :
    ridgeMatrix X alpha *ᵥ (ridge_fit X y alpha).1 = ridgeRhs X y ∧
    (∀ v, ridgeMatrix X alpha *ᵥ v = ridgeRhs X y → v = (ridge_fit X y alpha).1) ∧
    (ridge_fit X y alpha).2 = yMean y - xMean X ⬝ᵥ (ridge_fit X y alpha).1 := by
  have hd := ridgeMatrix_det_ne_zero X alpha ha
  refine ⟨linSolve_mulVec _ _ hd, fun v hv => ?_, rfl⟩
  exact mulVec_injective_of_det_ne_zero _ hd (hv.trans (linSolve_mulVec _ _ hd).symm)

/-- Witness for C6 with a single training row (`n = 1`, below the feature
count) and the default regularization strength `alpha = 10`. -/
theorem ridge_fit_spec_witness :
    (1 ≤ 1 ∧ (0 : ℚ) < 10) ∧
    (ridgeMatrix (Matrix.of fun (_ : Fin 1) (j : Fin 8) => ((j : ℕ) : ℚ)) 10 *ᵥ
        (ridge_fit (Matrix.of fun (_ : Fin 1) (j : Fin 8) => ((j : ℕ) : ℚ)) (fun _ => 2) 10).1 =
        ridgeRhs (Matrix.of fun (_ : Fin 1) (j : Fin 8) => ((j : ℕ) : ℚ)) (fun _ => 2) ∧
     (∀ v, ridgeMatrix (Matrix.of fun (_ : Fin 1) (j : Fin 8) => ((j : ℕ) : ℚ)) 10 *ᵥ v =
        ridgeRhs (Matrix.of fun (_ : Fin 1) (j : Fin 8) => ((j : ℕ) : ℚ)) (fun _ => 2) →
        v = (ridge_fit (Matrix.of fun (_ : Fin 1) (j : Fin 8) => ((j : ℕ) : ℚ))
          (fun _ => 2) 10).1) ∧
     (ridge_fit (Matrix.of fun (_ : Fin 1) (j : Fin 8) => ((j : ℕ) : ℚ)) (fun _ => 2) 10).2 =
        yMean (fun (_ : Fin 1) => (2 : ℚ)) -
          xMean (Matrix.of fun (_ : Fin 1) (j : Fin 8) => ((j : ℕ) : ℚ)) ⬝ᵥ
          (ridge_fit (Matrix.of fun (_ : Fin 1) (j : Fin 8) => ((j : ℕ) : ℚ)) (fun _ => 2) 10).1) :=
  ⟨⟨le_refl 1, by norm_num⟩,
   ridge_fit_spec (Matrix.of fun (_ : Fin 1) (j : Fin 8) => ((j : ℕ) : ℚ)) (fun _ => 2) 10
     (le_refl 1) (by norm_num)⟩

/- ### Persistent state: case store, follow-up store, model store

The SQLite tables `cases` and `followups`, the JSON model document, and the
`model_versions` audit table are modelled as lists/maps inside one `DB`
record; the wall clock (`now_ts`, `time.strftime`) becomes an explicit
timestamp argument `ts`, and `uuid.uuid4()` becomes an explicit `new_id`
argument. -/

def HORIZONS : List ℤ := [12, 24]

def AUTO_CAL_MIN_N : ℕ := 11

/-- The four stored prediction columns `pred_*_w12` / `pred_*_w24`. -/
structure PredCols where
  hb : ℚ
  fe : ℚ
  ferritin : ℚ
  tsat : ℚ
deriving Repr, DecidableEq

/-- A row of the `cases` table.  `tsat0` is stored non-null: the only writer,
`register_case`, derives it before inserting and raises otherwise. -/
structure CaseRow where
  case_id : String
  created_at : ℤ
  note : String
  external_id : String
  hb0 : ℚ
  fe0 : ℚ
  ferritin0 : ℚ
  tibc0 : ℚ
  tsat0 : ℚ
  dose_mg_day : ℤ
  adherence : ℚ
  bleed : ℚ
  inflam : ℚ
  pred_w12 : PredCols
  model_w12 : String
  pred_w24 : PredCols
  model_w24 : String
deriving Repr, DecidableEq

/-- A row of the `followups` table; `tsat` is a nullable column. -/
structure FollowupRow where
  case_id : String
  horizon_weeks : ℤ
  followup_at : ℤ
  hb : ℚ
  fe : ℚ
  ferritin : ℚ
  tibc : ℚ
  tsat : Option ℚ
deriving Repr, DecidableEq

/-- A row of the append-only `model_versions` audit table. -/
structure VersionRow where
  horizon_weeks : ℤ
  version : String
  trained_at : ℤ
  n_train : ℕ
deriving Repr, DecidableEq

/-- The durable state: `cases` and `followups` tables, the JSON model store
keyed by horizon, and the `model_versions` log. -/
structure DB where
  cases : List CaseRow
  followups : List FollowupRow
  models : ℤ → Option Model
  model_versions : List VersionRow

/-- The result dict of `train_calibration`. -/
structure TrainResult where
  status : String
  reason : Option String := none
  n_train : ℕ
  version : Option String := none
  metrics : Option TrainMetrics := none
deriving Repr, DecidableEq

/-- The result dict of `add_followup`. -/
structure FollowupResult where
  saved : Bool
  auto_calibration : TrainResult
deriving Repr, DecidableEq

/-- The result dict of `update_case_context_and_predictions` /
`simulate_predictions_for_case` / `register_case`. -/
structure PredOut where
  case_id : String
  p12 : Forecast
  p24 : Forecast
  model_w12 : String
  model_w24 : String
deriving Repr, DecidableEq

def predCols (f : Forecast) : PredCols := ⟨f.Hb, f.Fe, f.Ferritin, f.TSAT⟩

/-- `get_case`: `SELECT * FROM cases WHERE case_id = ?` (primary-key lookup). -/
def get_case (db : DB) (case_id : String) : Option CaseRow :=
  db.cases.find? (fun c => c.case_id == case_id)

/-- The baseline `Labs` reconstructed from a stored case row (as in
`update_case_context_and_predictions` / `simulate_predictions_for_case` /
`train_calibration`). -/
def caseLabs (c : CaseRow) : Labs :=
  { hb := c.hb0, fe := c.fe0, ferritin := c.ferritin0, tibc := c.tibc0, tsat := some c.tsat0 }

/-- The stored `Ctx` reconstructed from a case row. -/
def caseCtx (c : CaseRow) : Ctx :=
  { dose_mg_day := c.dose_mg_day, adherence := c.adherence, bleed := c.bleed,
    inflam := c.inflam }

/-- `predict_for_horizon` of core.py: calibrated when a model exists for the
horizon, else the raw rule model, with the corresponding tag. -/
def predict_for_horizon (db : DB) (labs : Labs) (ctx : Ctx) (horizon_weeks : ℤ) :
    Except String (Forecast × String) :=
  match db.models horizon_weeks with
  | some m => (calibrated_predict labs ctx horizon_weeks m).map
      (fun p => (p, "calibrated:" ++ m.version))
  | none => (rule_predict labs ctx horizon_weeks).map (fun p => (p, "rule_v1"))

/-- `update_case_context_and_predictions` of core.py: raises not-found for an
unknown case_id, otherwise recomputes and persists the stored predictions
from the case's original baseline labs. -/
def update_case_context_and_predictions (db : DB) (case_id : String) (ctx : Ctx)
    (note : Option String) (external_id : Option String) : Except String (PredOut × DB) :=
  match get_case db case_id with
  | none => .error "case not found"
  | some row => do
    let labs0 := caseLabs row
    let (p12, tag12) ← predict_for_horizon db labs0 ctx 12
    let (p24, tag24) ← predict_for_horizon db labs0 ctx 24
    let row2 := { row with
      dose_mg_day := ctx.dose_mg_day, adherence := ctx.adherence,
      bleed := ctx.bleed, inflam := ctx.inflam,
      pred_w12 := predCols p12, model_w12 := tag12,
      pred_w24 := predCols p24, model_w24 := tag24,
      note := note.getD row.note, external_id := external_id.getD row.external_id }
    .ok (⟨case_id, p12, p24, tag12, tag24⟩,
      { db with cases := db.cases.map (fun c => if c.case_id = case_id then row2 else c) })

/-- `simulate_predictions_for_case` of core.py: the same computation but
without persisting. -/
def simulate_predictions_for_case (db : DB) (case_id : String) (ctx : Ctx) :
    Except String PredOut :=
  match get_case db case_id with
  | none => .error "case not found"
  | some row => do
    let labs0 := caseLabs row
    let (p12, tag12) ← predict_for_horizon db labs0 ctx 12
    let (p24, tag24) ← predict_for_horizon db labs0 ctx 24
    .ok ⟨case_id, p12, p24, tag12, tag24⟩

/-- `resolve_case_id` of core.py: empty identifier resolves to nothing; an
exact `case_id` match is tried first and only on failure an `external_id`
match. -/
def resolve_case_id (db : DB) (identifier : String) : Option String :=
  if identifier = "" then none
  else
    let ident := identifier.trim
    match db.cases.find? (fun c => c.case_id == ident) with
    | some r => some r.case_id
    | none => (db.cases.find? (fun c => c.external_id == ident)).map (fun r => r.case_id)

/-- `register_case` of core.py, with the fresh uuid and the clock passed in
explicitly. -/
def register_case (db : DB) (ts : ℤ) (new_id : String) (labs : Labs) (ctx : Ctx)
    (note : String) (external_id : String) : Except String (String × PredOut × DB) :=
  match derive_tsat0 labs with
  | none => .error "TSATまたはFe/TIBCが必要です"
  | some t0 => do
    let (p12, tag12) ← predict_for_horizon db labs ctx 12
    let (p24, tag24) ← predict_for_horizon db labs ctx 24
    let row : CaseRow :=
      ⟨new_id, ts, note, external_id, labs.hb, labs.fe, labs.ferritin, labs.tibc, t0,
        ctx.dose_mg_day, ctx.adherence, ctx.bleed, ctx.inflam,
        predCols p12, tag12, predCols p24, tag24⟩
    .ok (new_id, ⟨new_id, p12, p24, tag12, tag24⟩, { db with cases := db.cases ++ [row] })

/-- `_fetch_training_rows`: the `cases JOIN followups` rows for a horizon. -/
def fetch_training_rows (db : DB) (horizon_weeks : ℤ) : List (CaseRow × FollowupRow) :=
  db.cases.flatMap (fun c =>
    (db.followups.filter
      (fun f => f.case_id == c.case_id && f.horizon_weeks == horizon_weeks)).map
      (fun f => (c, f)))

/-- The feature row `X_list.append([...])` of `train_calibration`, in the
fixed `FEATURE_KEYS` order. -/
def featVec (c : CaseRow) : Fin 8 → ℚ :=
  ![c.hb0, c.tsat0, c.ferritin0, c.tibc0, (c.dose_mg_day : ℚ), c.adherence, c.bleed, c.inflam]

/-- `_mae` of core.py. -/
def mae {n : ℕ} (y_true y_pred : Fin n → ℚ) : ℚ := (∑ i, |y_true i - y_pred i|) / n

/-- The `pack` helper of `train_calibration`: weights zipped with
`FEATURE_KEYS`. -/
def pack (w : Fin 8 → ℚ) (b : ℚ) : Adj := ⟨b, FEATURE_KEYS.zip (List.ofFn w)⟩

/-- `train_calibration` of core.py.  The three gating checks mirror the
source: no rows at all; fewer than `AUTO_CAL_MIN_N` rows when not forced;
unchanged row count against the current model's `n_train` when not forced.
Otherwise three ridge fits on the residuals are computed, the new model is
stored as the current model for the horizon and a `model_versions` row is
appended.  The version string `time.strftime(...)` is modelled as the
decimal print of the clock value. -/
def train_calibration (db : DB) (ts : ℤ) (horizon_weeks : ℤ) (force : Bool) (alpha : ℚ) :
    TrainResult × DB :=
  let rows := fetch_training_rows db horizon_weeks
  let n := rows.length
  if n = 0 then
    ({ status := "skipped", reason := some "no followup data for training", n_train := 0 }, db)
  else if force = false ∧ n < AUTO_CAL_MIN_N then
    ({ status := "skipped", reason := some "training rows < AUTO_CAL_MIN_N", n_train := n }, db)
  else if force = false ∧ (db.models horizon_weeks).map Model.n_train = some n then
    ({ status := "skipped", reason := some "no new data since last training", n_train := n }, db)
  else
    let X : Matrix (Fin n) (Fin 8) ℚ := Matrix.of fun i j => featVec (rows.get i).1 j
    let ruleF : Fin n → Forecast := fun i =>
      rule_core (caseLabs (rows.get i).1) (rows.get i).1.tsat0 (caseCtx (rows.get i).1)
        horizon_weeks
    let y_hb : Fin n → ℚ := fun i => (rows.get i).2.hb - (ruleF i).Hb
    let y_tsat : Fin n → ℚ := fun i => ((rows.get i).2.tsat.getD 0) - (ruleF i).TSAT
    let y_ferr : Fin n → ℚ := fun i => (rows.get i).2.ferritin - (ruleF i).Ferritin
    let fit_hb := ridge_fit X y_hb alpha
    let fit_tsat := ridge_fit X y_tsat alpha
    let fit_ferr := ridge_fit X y_ferr alpha
    let metrics : TrainMetrics :=
      { mae_hb_residual := mae y_hb (fun i => (X *ᵥ fit_hb.1) i + fit_hb.2)
        mae_tsat_residual := mae y_tsat (fun i => (X *ᵥ fit_tsat.1) i + fit_tsat.2)
        mae_ferritin_residual := mae y_ferr (fun i => (X *ᵥ fit_ferr.1) i + fit_ferr.2)
        alpha := alpha }
    let version := toString ts
    let model : Model :=
      { version := version, trained_at := ts, horizon_weeks := horizon_weeks, n_train := n,
        features := FEATURE_KEYS,
        adjustments_hb := pack fit_hb.1 fit_hb.2,
        adjustments_tsat := pack fit_tsat.1 fit_tsat.2,
        adjustments_ferritin := pack fit_ferr.1 fit_ferr.2,
        metrics := metrics }
    ({ status := "trained", reason := none, n_train := n, version := some version,
       metrics := some metrics },
     { db with
       models := fun h2 => if h2 = horizon_weeks then some model else db.models h2,
       model_versions := db.model_versions ++ [⟨horizon_weeks, version, ts, n⟩] })

/-- `add_followup` of core.py: validates only the horizon, derives a missing
TSAT (possibly to NULL), upserts the row on the (case_id, horizon_weeks) key
— with no check that the case exists — and then always attempts automatic
retraining for the horizon. -/
def add_followup (db : DB) (ts : ℤ) (case_id : String) (horizon_weeks : ℤ)
    (hb fe ferritin tibc : ℚ) (tsat : Option ℚ) : Except String (FollowupResult × DB) :=
  if horizon_weeks ∈ HORIZONS then
    let tsat2 := match tsat with
      | some t => some t
      | none => calc_tsat fe tibc
    let row : FollowupRow := ⟨case_id, horizon_weeks, ts, hb, fe, ferritin, tibc, tsat2⟩
    let db1 := { db with followups :=
      (db.followups.filter
        (fun f => !(f.case_id == case_id && f.horizon_weeks == horizon_weeks))) ++ [row] }
    let r := train_calibration db1 ts horizon_weeks false 10
    .ok ({ saved := true, auto_calibration := r.1 }, r.2)
  else .error "horizon_weeks must be 12 or 24"

/- ### Claim theorems: case store and calibration store -/

theorem train_calibration_followups (db : DB) (ts horizon_weeks : ℤ) (force : Bool)
    (alpha : ℚ) :
    ((train_calibration db ts horizon_weeks force alpha).2).followups = db.followups := by
  unfold train_calibration
  dsimp only
  repeat' split
  all_goals rfl

theorem get_case_eq_none (db : DB) (cid : String) (hmiss : ∀ c ∈ db.cases, c.case_id ≠ cid) :
    get_case db cid = none := by
  apply List.find?_eq_none.mpr
  intro c hc
  simpa using hmiss c hc

/-- C1 (amended): for an unknown case_id,
`update_case_context_and_predictions` and `simulate_predictions_for_case`
fail with the not-found error (and hence write nothing), but `add_followup`
performs no existence check: it persists a follow-up row under the unknown
case_id and reports saved=True. -/
theorem unknown_case_id_behavior (db : DB) (ts : ℤ) (cid : String) (ctx : Ctx)
    (note exid : Option String) (horizon_weeks : ℤ) (hb fe fr tb : ℚ) (tsat : Option ℚ)
    (hmiss : ∀ c ∈ db.cases, c.case_id ≠ cid) (hh : horizon_weeks ∈ HORIZONS) :
    update_case_context_and_predictions db cid ctx note exid = .error "case not found" ∧
    simulate_predictions_for_case db cid ctx = .error "case not found" ∧
    ∃ res, add_followup db ts cid horizon_weeks hb fe fr tb tsat = .ok res ∧
      res.1.saved = true ∧
      ∃ f, f ∈ res.2.followups ∧ f.case_id = cid ∧ f.horizon_weeks = horizon_weeks := by
  have hg : get_case db cid = none := get_case_eq_none db cid hmiss
  refine ⟨?_, ?_, ?_⟩
  · unfold update_case_context_and_predictions
    rw [hg]
  · unfold simulate_predictions_for_case
    rw [hg]
  · unfold add_followup
    rw [if_pos hh]
    refine ⟨_, rfl, rfl, ?_⟩
    rw [train_calibration_followups]
    exact ⟨_, List.mem_append_right _ (List.mem_singleton_self _), rfl, rfl⟩

/-- Witness for C1's amended claim on an empty store at horizon 12. -/
theorem unknown_case_id_behavior_witness :
    ((∀ c ∈ (⟨[], [], fun _ => none, []⟩ : DB).cases, c.case_id ≠ "missing-case") ∧
      (12 : ℤ) ∈ HORIZONS) ∧
    (update_case_context_and_predictions ⟨[], [], fun _ => none, []⟩ "missing-case"
        ⟨500, 1, 0, 0⟩ none none = .error "case not found" ∧
     simulate_predictions_for_case ⟨[], [], fun _ => none, []⟩ "missing-case" ⟨500, 1, 0, 0⟩ =
        .error "case not found" ∧
     ∃ res, add_followup ⟨[], [], fun _ => none, []⟩ 7 "missing-case" 12 10 50 20 300 none =
        .ok res ∧ res.1.saved = true ∧
        ∃ f, f ∈ res.2.followups ∧ f.case_id = "missing-case" ∧ f.horizon_weeks = 12) :=
  ⟨⟨by simp, by decide⟩,
   unknown_case_id_behavior ⟨[], [], fun _ => none, []⟩ 7 "missing-case" ⟨500, 1, 0, 0⟩
     none none 12 10 50 20 300 none (by simp) (by decide)⟩

/-- Counterexample to C1 as stated: on an empty case store, `add_followup`
for the unknown case_id "missing-case" does not raise a not-found error; it
returns saved=True and a follow-up record is written. -/
theorem unknown_case_id_cx :
    ∃ res, add_followup ⟨[], [], fun _ => none, []⟩ 0 "missing-case" 12 10 50 20 300 none =
        .ok res ∧
      res.1.saved = true ∧ res.2.followups.length = 1 :=
  ⟨_, rfl, rfl, rfl⟩

/-- C10: `add_followup` with tsat absent and tibc ≤ 0 (TSAT underivable)
does not raise an input error: it persists the follow-up row with a NULL
tsat and reports saved=True — while `rule_predict` raises on the analogous
input. -/
theorem add_followup_null_tsat (db : DB) (ts : ℤ) (cid : String) (horizon_weeks : ℤ)
    (hb fe fr tb : ℚ) (ctx : Ctx) (hh : horizon_weeks ∈ HORIZONS) (htb : tb ≤ 0) :
    (∃ res, add_followup db ts cid horizon_weeks hb fe fr tb none = .ok res ∧
      res.1.saved = true ∧
      (⟨cid, horizon_weeks, ts, hb, fe, fr, tb, none⟩ : FollowupRow) ∈ res.2.followups) ∧
    (∃ e, rule_predict ⟨hb, fe, fr, tb, none⟩ ctx horizon_weeks = .error e) := by
  constructor
  · unfold add_followup
    rw [if_pos hh]
    have ht2 : calc_tsat fe tb = none := by simp [calc_tsat, htb]
    refine ⟨_, rfl, rfl, ?_⟩
    rw [train_calibration_followups]
    apply List.mem_append_right
    simp [ht2]
  · simp [rule_predict, derive_tsat0, calc_tsat, htb]

/-- Witness for C10 at horizon 12, tibc = 0, on an empty store. -/
theorem add_followup_null_tsat_witness :
    ((12 : ℤ) ∈ HORIZONS ∧ (0 : ℚ) ≤ 0) ∧
    ((∃ res, add_followup ⟨[], [], fun _ => none, []⟩ 0 "c1" 12 10 50 20 0 none = .ok res ∧
        res.1.saved = true ∧
        (⟨"c1", 12, 0, 10, 50, 20, 0, none⟩ : FollowupRow) ∈ res.2.followups) ∧
     (∃ e, rule_predict ⟨10, 50, 20, 0, none⟩ ⟨500, 1, 0, 0⟩ 12 = .error e)) :=
  ⟨⟨by decide, le_refl 0⟩,
   add_followup_null_tsat ⟨[], [], fun _ => none, []⟩ 0 "c1" 12 10 50 20 0 ⟨500, 1, 0, 0⟩
     (by decide) (le_refl 0)⟩

theorem add_followup_followups (db : DB) (ts : ℤ) (cid : String) (horizon_weeks : ℤ)
    (hb fe fr tb : ℚ) (tsv : Option ℚ) (hh : horizon_weeks ∈ HORIZONS) :
    ∃ res, add_followup db ts cid horizon_weeks hb fe fr tb tsv = .ok res ∧
      res.2.followups =
        (db.followups.filter
          (fun f => !(f.case_id == cid && f.horizon_weeks == horizon_weeks))) ++
        [⟨cid, horizon_weeks, ts, hb, fe, fr, tb,
          match tsv with | some t => some t | none => calc_tsat fe tb⟩] := by
  unfold add_followup
  rw [if_pos hh]
  exact ⟨_, rfl, train_calibration_followups _ _ _ _ _⟩

/-- C7: two `add_followup` calls for the same (case_id, horizon) key leave
exactly one stored follow-up row for that key, holding the second call's
values (insert-or-replace). -/
theorem add_followup_insert_or_replace (db : DB) (ts1 ts2 : ℤ) (cid : String)
    (horizon_weeks : ℤ) (hb1 fe1 fr1 tb1 : ℚ) (tsA : Option ℚ)
    (hb2 fe2 fr2 tb2 : ℚ) (tsB : Option ℚ) (hh : horizon_weeks ∈ HORIZONS) :
    ((add_followup db ts1 cid horizon_weeks hb1 fe1 fr1 tb1 tsA).bind
      (fun r1 => add_followup r1.2 ts2 cid horizon_weeks hb2 fe2 fr2 tb2 tsB)).map
      (fun r2 => r2.2.followups.filter
        (fun f => f.case_id == cid && f.horizon_weeks == horizon_weeks)) =
    .ok [⟨cid, horizon_weeks, ts2, hb2, fe2, fr2, tb2,
      match tsB with | some t => some t | none => calc_tsat fe2 tb2⟩] := by
  obtain ⟨r1, hr1, hf1⟩ := add_followup_followups db ts1 cid horizon_weeks hb1 fe1 fr1 tb1 tsA hh
  obtain ⟨r2, hr2, hf2⟩ :=
    add_followup_followups r1.2 ts2 cid horizon_weeks hb2 fe2 fr2 tb2 tsB hh
  rw [hr1]
  simp only [Except.bind]
  rw [hr2]
  simp only [Except.map]
  rw [hf2, hf1]
  rw [List.filter_append, List.filter_filter]
  simp

/-- Witness for C7: two submissions for ("c1", 12) on an empty store. -/
theorem add_followup_insert_or_replace_witness :
    (12 : ℤ) ∈ HORIZONS ∧
    ((add_followup ⟨[], [], fun _ => none, []⟩ 5 "c1" 12 9 40 15 280 none).bind
      (fun r1 => add_followup r1.2 6 "c1" 12 11 60 25 320 (some 20))).map
      (fun r2 => r2.2.followups.filter
        (fun f => f.case_id == "c1" && f.horizon_weeks == 12)) =
    .ok [⟨"c1", 12, 6, 11, 60, 25, 320,
      match some (20 : ℚ) with | some t => some t | none => calc_tsat 60 320⟩] :=
  ⟨by decide,
   add_followup_insert_or_replace ⟨[], [], fun _ => none, []⟩ 5 6 "c1" 12 9 40 15 280 none
     11 60 25 320 (some 20) (by decide)⟩

/-- C4: `train_calibration` with force=False is gated by the
(case, followup) row count for the horizon: zero rows or exactly ten rows
give status "skipped"; eleven or more rows — when the current model's
stored n_train differs from the row count (in particular when no model
exists yet) — give status "trained" and persist a model for that horizon
whose n_train equals the row count. -/
theorem train_calibration_gating (db : DB) (ts horizon_weeks : ℤ) (alpha : ℚ) :
    (fetch_training_rows db horizon_weeks = [] →
      (train_calibration db ts horizon_weeks false alpha).1.status = "skipped") ∧
    ((fetch_training_rows db horizon_weeks).length = 10 →
      (train_calibration db ts horizon_weeks false alpha).1.status = "skipped") ∧
    (11 ≤ (fetch_training_rows db horizon_weeks).length →
      (db.models horizon_weeks).map Model.n_train ≠
        some (fetch_training_rows db horizon_weeks).length →
      (train_calibration db ts horizon_weeks false alpha).1.status = "trained" ∧
      ∃ m, ((train_calibration db ts horizon_weeks false alpha).2).models horizon_weeks =
          some m ∧ m.n_train = (fetch_training_rows db horizon_weeks).length) := by
  refine ⟨fun h0 => ?_, fun h10 => ?_, fun h11 hne => ?_⟩
  · unfold train_calibration
    dsimp only
    rw [if_pos (by rw [h0]; rfl)]
  · unfold train_calibration
    dsimp only
    rw [if_neg (by omega), if_pos ⟨rfl, by rw [h10]; exact by norm_num [AUTO_CAL_MIN_N]⟩]
  · unfold train_calibration
    dsimp only
    rw [if_neg (by omega),
      if_neg (fun hc => by have h2 := hc.2; unfold AUTO_CAL_MIN_N at h2; omega),
      if_neg (fun hc => hne hc.2)]
    refine ⟨rfl, ?_⟩
    dsimp only
    rw [if_pos rfl]
    exact ⟨_, rfl, rfl⟩

/-- A concrete store with `k` registered cases, each having one horizon-12
follow-up, used to witness the gating branches of C4. -/
def sample_db (k : ℕ) : DB :=
  { cases := (List.range k).map (fun i =>
      ⟨"c" ++ toString i, 0, "", "", 10, 50, 20, 300, 50/3, 500, 1, 0, 0,
        ⟨0, 0, 0, 0⟩, "rule_v1", ⟨0, 0, 0, 0⟩, "rule_v1"⟩),
    followups := (List.range k).map (fun i =>
      ⟨"c" ++ toString i, 12, 0, 11, 60, 25, 320, some 20⟩),
    models := fun _ => none,
    model_versions := [] }

/-- Witness for C4: an empty store is skipped, a ten-row store is skipped,
and an eleven-row store (with no current model) is trained with a persisted
model whose n_train is 11. -/
theorem train_calibration_gating_witness :
    (fetch_training_rows (sample_db 0) 12 = [] ∧
     (train_calibration (sample_db 0) 0 12 false 10).1.status = "skipped") ∧
    ((fetch_training_rows (sample_db 10) 12).length = 10 ∧
     (train_calibration (sample_db 10) 0 12 false 10).1.status = "skipped") ∧
    (11 ≤ (fetch_training_rows (sample_db 11) 12).length ∧
     ((sample_db 11).models 12).map Model.n_train ≠
       some (fetch_training_rows (sample_db 11) 12).length ∧
     (train_calibration (sample_db 11) 0 12 false 10).1.status = "trained" ∧
     ∃ m, ((train_calibration (sample_db 11) 0 12 false 10).2).models 12 = some m ∧
       m.n_train = (fetch_training_rows (sample_db 11) 12).length) := by
  have h0 : fetch_training_rows (sample_db 0) 12 = [] := by decide
  have h10 : (fetch_training_rows (sample_db 10) 12).length = 10 := by decide
  have h11 : 11 ≤ (fetch_training_rows (sample_db 11) 12).length := by decide
  have hne : ((sample_db 11).models 12).map Model.n_train ≠
      some (fetch_training_rows (sample_db 11) 12).length := by
    intro hc
    simp [sample_db] at hc
  have h3 := (train_calibration_gating (sample_db 11) 0 12 10).2.2 h11 hne
  exact ⟨⟨h0, (train_calibration_gating (sample_db 0) 0 12 10).1 h0⟩,
    ⟨h10, (train_calibration_gating (sample_db 10) 0 12 10).2.1 h10⟩,
    ⟨h11, hne, h3.1, h3.2⟩⟩

/-- C8: `resolve_case_id` tries an exact case_id match first, then an
external_id match, and returns none when neither matches; in particular a
string that is some case's case_id resolves to that case_id even when it is
also another case's external_id. -/
theorem resolve_case_id_precedence (db : DB) (s : String) (hs : s ≠ "") :
    ((∃ c, c ∈ db.cases ∧ c.case_id = s.trim) → resolve_case_id db s = some s.trim) ∧
    ((∀ c ∈ db.cases, c.case_id ≠ s.trim) →
      (∃ c, c ∈ db.cases ∧ c.external_id = s.trim) →
      ∃ c, c ∈ db.cases ∧ c.external_id = s.trim ∧ resolve_case_id db s = some c.case_id) ∧
    ((∀ c ∈ db.cases, c.case_id ≠ s.trim ∧ c.external_id ≠ s.trim) →
      resolve_case_id db s = none) := by
  unfold resolve_case_id
  rw [if_neg hs]
  refine ⟨fun ⟨c, hc, hid⟩ => ?_, fun hno ⟨c, hc, hex⟩ => ?_, fun hnone => ?_⟩
  · have hsome : (db.cases.find? (fun c => c.case_id == s.trim)).isSome := by
      rw [List.find?_isSome]
      exact ⟨c, hc, by simp [hid]⟩
    obtain ⟨r, hr⟩ := Option.isSome_iff_exists.mp hsome
    have hrid : r.case_id = s.trim := by simpa using List.find?_some hr
    simp only [hr, hrid]
  · have h1 : db.cases.find? (fun c => c.case_id == s.trim) = none := by
      rw [List.find?_eq_none]
      intro x hx
      simpa using hno x hx
    have hsome : (db.cases.find? (fun c => c.external_id == s.trim)).isSome := by
      rw [List.find?_isSome]
      exact ⟨c, hc, by simp [hex]⟩
    obtain ⟨r, hr⟩ := Option.isSome_iff_exists.mp hsome
    have hrex : r.external_id = s.trim := by simpa using List.find?_some hr
    exact ⟨r, List.mem_of_find?_eq_some hr, hrex, by simp only [h1, hr, Option.map_some']⟩
  · have h1 : db.cases.find? (fun c => c.case_id == s.trim) = none := by
      rw [List.find?_eq_none]
      intro x hx
      simpa using (hnone x hx).1
    have h2 : db.cases.find? (fun c => c.external_id == s.trim) = none := by
      rw [List.find?_eq_none]
      intro x hx
      simpa using (hnone x hx).2
    simp only [h1, h2, Option.map_none']

/-- Witness for C8: a store where one case's external_id equals another
case's case_id; resolving that string returns the case_id match. -/
theorem resolve_case_id_precedence_witness :
    ("CASE-1" : String) ≠ "" ∧
    resolve_case_id
      ⟨[⟨("CASE-1" : String).trim, 0, "", "", 10, 50, 20, 300, 50/3, 500, 1, 0, 0,
          ⟨0, 0, 0, 0⟩, "rule_v1", ⟨0, 0, 0, 0⟩, "rule_v1"⟩,
        ⟨"CASE-2", 0, "", ("CASE-1" : String).trim, 11, 55, 25, 310, 20, 500, 1, 0, 0,
          ⟨0, 0, 0, 0⟩, "rule_v1", ⟨0, 0, 0, 0⟩, "rule_v1"⟩], [], fun _ => none, []⟩
      "CASE-1" = some ("CASE-1" : String).trim :=
  ⟨by decide,
   (resolve_case_id_precedence
      ⟨[⟨("CASE-1" : String).trim, 0, "", "", 10, 50, 20, 300, 50/3, 500, 1, 0, 0,
          ⟨0, 0, 0, 0⟩, "rule_v1", ⟨0, 0, 0, 0⟩, "rule_v1"⟩,
        ⟨"CASE-2", 0, "", ("CASE-1" : String).trim, 11, 55, 25, 310, 20, 500, 1, 0, 0,
          ⟨0, 0, 0, 0⟩, "rule_v1", ⟨0, 0, 0, 0⟩, "rule_v1"⟩], [], fun _ => none, []⟩
      "CASE-1" (by decide)).1
     ⟨⟨("CASE-1" : String).trim, 0, "", "", 10, 50, 20, 300, 50/3, 500, 1, 0, 0,
        ⟨0, 0, 0, 0⟩, "rule_v1", ⟨0, 0, 0, 0⟩, "rule_v1"⟩, by simp, rfl⟩⟩

end Riona
